import Mathlib

/-!
Verification of the `carusel` content-production pipeline, centred on the
parallel image-generation subsystem in `content_generator/tools.py`
(`generate_all_images_parallel` and its inner `generate_single_image`),
the per-post state handling in `content_generator/post_selector_tool.py`
(`select_current_post`, `clear_post_state`) and the batch loop wiring in
`content_generator/orchestrator.py` (`batch_processor`).

The Python code is shallowly embedded as pure Lean functions.  Interaction
with the external image-generation service is represented by an oracle:
for every attempt the environment supplies the duration of the remote call
and the response it would return; the embedded code then applies exactly
the timeout, retry, extraction and aggregation logic of the source.
-/

namespace Carusel

/-- Relevant fields of `content_generator/config.py` (`class Config`).
Defaults in the source: `MAX_CONCURRENT_IMAGE_REQUESTS = 3`,
`RETRY_ATTEMPTS = 3`, `RETRY_DELAY = 2`, `IMAGE_GENERATION_TIMEOUT = 60`,
`STYLE = ""`.  Durations are in whole seconds (the source reads them with
`int(os.getenv(...))`). -/
structure GenCfg where
  max_concurrent : Nat
  max_retries : Nat
  base_delay : Nat
  image_timeout : Nat
  style : String
deriving Repr, DecidableEq

/-- One entry of the `image_prompts` array: the source reads
`prompt_data.get('p') or prompt_data.get('prompt', '')` for the prompt text
and `prompt_data.get('t') or prompt_data.get('image_text', '')` for the
overlay text (tools.py:790-791); we model the two resolved strings. -/
structure PromptData where
  p : String
  t : String
deriving Repr, DecidableEq

/-- The `generation_reference_images` dict from state: it may contain keys
`'style'` and `'persona'`, each holding image bytes (modelled as `List Nat`).
`none` means the key is absent. -/
structure RefImages where
  style : Option (List Nat)
  persona : Option (List Nat)
deriving Repr, DecidableEq

/-- `if reference_images:` — the dict is truthy iff it has at least one key. -/
def RefImages.nonempty (r : RefImages) : Bool :=
  r.style.isSome || r.persona.isSome

/-- tools.py:811 -/
def styleRefInstruction : String := "Use the provided image as a style reference."

/-- tools.py:813 -/
def personaRefInstruction : String :=
  "Use the person from the provided image, preserving their facial features."

/-- The `prompt_parts` list built in tools.py:806-823: reference-image
instructions first (style, then persona), then the main prompt text, then
the global `Config.STYLE` suffix — the latter only when `Config.STYLE` is
truthy (non-empty) and no `'style'` reference image is present. -/
def buildPromptParts (refs : RefImages) (style : String) (prompt_text : String) : List String :=
  (if refs.nonempty then
      (if refs.style.isSome then [styleRefInstruction] else []) ++
      (if refs.persona.isSome then [personaRefInstruction] else [])
    else []) ++
  [prompt_text] ++
  (if style ≠ "" && refs.style.isNone then [style] else [])

/-- tools.py:825 `full_text = " ".join(prompt_parts)` -/
def buildFullText (refs : RefImages) (style : String) (prompt_text : String) : String :=
  String.intercalate " " (buildPromptParts refs style prompt_text)

/-! ### The remote response and single-attempt semantics -/

/-- One `types.Part` of the remote response: `inline_data` carries the image
bytes when present. -/
structure RespPart where
  inline_data : Option (List Nat)
deriving Repr, DecidableEq

/-- One candidate of the remote response; `content` is `None` or a parts
list, `finish_reason` a diagnostic string. -/
structure RespCandidate where
  content : Option (List RespPart)
  finish_reason : String
deriving Repr, DecidableEq

/-- The remote response: a (possibly empty) candidate list. -/
structure RemoteResponse where
  candidates : List RespCandidate
deriving Repr, DecidableEq

/-- What the environment determines about one attempt: how long the remote
call takes (`apiDur`, seconds) and what it returns if it completes. -/
structure Attempt where
  apiDur : Nat
  response : RemoteResponse
deriving Repr, DecidableEq

/-- The response-inspection code of tools.py:913-959: no candidates, or no
content/parts, or no part with inline data, each raise; the first part with
`inline_data` yields the image bytes. -/
def extractImage (r : RemoteResponse) : Except String (List Nat) :=
  match r.candidates with
  | [] => .error "No candidates - possibly safety filter"
  | c :: _ =>
    match c.content with
    | none => .error ("No content.parts - finish_reason: " ++ c.finish_reason)
    | some parts =>
      if parts.isEmpty then
        .error ("No content.parts - finish_reason: " ++ c.finish_reason)
      else
        match parts.findSome? (fun part => part.inline_data) with
        | some bytes => .ok bytes
        | none => .error "No image data in response"

/-- One attempt of the body of the retry loop (tools.py:891-959): the remote
call is wrapped in `asyncio.wait_for(..., timeout=Config.IMAGE_GENERATION_TIMEOUT)`;
if the call takes longer than the per-image timeout, a timeout exception is
raised after `image_timeout` seconds; otherwise the response is inspected.
Returns the attempt's outcome together with the seconds it consumed. -/
def attemptRun (cfg : GenCfg) (a : Attempt) : Except String (List Nat) × Nat :=
  if cfg.image_timeout < a.apiDur then
    (.error ("Image generation timed out after " ++ toString cfg.image_timeout ++ "s"),
      cfg.image_timeout)
  else
    (extractImage a.response, a.apiDur)

/-- One per-task result dict: tools.py:951-957 on success
(`{'index', 'status': 'success', 'path', 'size', 'text'}`), tools.py:969/972
on failure (`{'index', 'status': 'error', 'error'}`). -/
inductive TaskResult where
  | success (index : Nat) (path : String) (size : Nat) (text : String)
  | failure (index : Nat) (msg : String)
deriving Repr, DecidableEq

/-- The `index` field present in both result shapes. -/
def TaskResult.index : TaskResult → Nat
  | .success i _ _ _ => i
  | .failure i _ => i

/-- `r.get('status') == 'success'` (tools.py:1005). -/
def TaskResult.isOk : TaskResult → Bool
  | .success _ _ _ _ => true
  | .failure _ _ => false

/-- `r.get('status') == 'error'` (tools.py:1006). -/
def TaskResult.isErr : TaskResult → Bool
  | .success _ _ _ _ => false
  | .failure _ _ => true

/-- Outcome of running the whole retry loop for one task, with the
bookkeeping the correctness statements talk about: the returned dict, the
total seconds consumed (attempt durations plus backoff sleeps), the number
of attempts executed, and the list of backoff sleeps performed. -/
structure RunResult where
  result : TaskResult
  elapsed : Nat
  attemptsUsed : Nat
  sleeps : List Nat
deriving Repr, DecidableEq

/-- The retry loop `for attempt in range(max_retries):` of tools.py:793-972,
with `fuel` the number of remaining iterations and `attempt` the current
0-based attempt number (invariant at call sites: `attempt + fuel = max_retries`).
On an attempt failure with `attempt < max_retries - 1` the task sleeps
`base_delay * 2 ** attempt` seconds (tools.py:964-966) and retries; on the
last attempt's failure it returns the error dict with that attempt's message
(tools.py:969); falling out of the loop returns the sentinel dict
(tools.py:972). -/
def retryFrom (cfg : GenCfg) (idx : Nat) (oracle : Nat → Attempt) (savePath : Nat → String)
    (text : String) : Nat → Nat → RunResult
  | 0, _ => ⟨.failure idx "Unexpected end of retry loop", 0, 0, []⟩
  | fuel + 1, attempt =>
    match attemptRun cfg (oracle attempt) with
    | (.ok bytes, d) =>
      ⟨.success idx (savePath idx) bytes.length text, d, 1, []⟩
    | (.error e, d) =>
      if attempt < cfg.max_retries - 1 then
        let delay := cfg.base_delay * 2 ^ attempt
        let rest := retryFrom cfg idx oracle savePath text fuel (attempt + 1)
        ⟨rest.result, d + delay + rest.elapsed, rest.attemptsUsed + 1, delay :: rest.sleeps⟩
      else
        ⟨.failure idx e, d, 1, []⟩

/-- `generate_single_image(idx, prompt_data)` (tools.py:784-972): builds the
request text from the prompt and reference images, then runs the retry loop
from attempt 0.  The environment oracle maps the request text and the
attempt number to that attempt's remote behaviour; `savePath` stands for
`save_image_local` (local_saver.py), which returns the saved file's path. -/
def generate_single_image (cfg : GenCfg) (refs : RefImages) (savePath : Nat → String)
    (oracle : String → Nat → Attempt) (idx : Nat) (pd : PromptData) : RunResult :=
  retryFrom cfg idx (oracle (buildFullText refs cfg.style pd.p)) savePath pd.t cfg.max_retries 0

/-! ### The batch driver `generate_all_images_parallel` -/

/-- `math.ceil(n / k)` for naturals (tools.py:983). -/
def ceilDivNat (n k : Nat) : Nat := (n + k - 1) / k

/-- The dynamic batch deadline of tools.py:983-984:
`num_batches * 20 + 30` seconds, with `num_batches = ceil(N / K)`. -/
def batchTimeout (cfg : GenCfg) (n : Nat) : Nat :=
  ceilDivNat n cfg.max_concurrent * 20 + 30

/-- The environment for one batch run: per-task per-attempt remote
behaviour, the storage collaborator's returned paths, and the wall-clock
time (seconds from batch start) at which each task's coroutine finishes —
the latter is fixed by the scheduler and the network, and
`asyncio.wait_for(asyncio.gather(...), timeout)` times out exactly when some
task finishes after the deadline. -/
structure BatchEnv where
  oracles : Nat → String → Nat → Attempt
  savePath : Nat → String
  taskFinish : Nat → Nat

/-- The dict returned by `generate_all_images_parallel`; every field other
than `status` is `none` when the corresponding key is absent from the
returned dict. -/
structure BatchReturn where
  status : String
  error : Option String := none
  total : Option Nat := none
  successful : Option Nat := none
  failed : Option Nat := none
  results : Option (List TaskResult) := none
deriving Repr, DecidableEq

/-- `generate_all_images_parallel` (tools.py:714-1030), for an already
parsed prompt list.  An empty prompt list returns the error dict of
tools.py:749-753.  Otherwise all tasks are launched and gathered under the
computed batch deadline: if any task finishes after the deadline, the
gather times out and the timeout dict of tools.py:992-999 is returned
(`total = N`, `successful = 0`, no `failed`/`results` keys); otherwise the
per-task dicts are aggregated as in tools.py:1004-1021. -/
def generate_all_images_parallel (cfg : GenCfg) (image_prompts : List PromptData)
    (refs : RefImages) (env : BatchEnv) : BatchReturn :=
  if image_prompts.length = 0 then
    { status := "error", error := some "No image prompts found in state" }
  else
    let n := image_prompts.length
    let timeout := batchTimeout cfg n
    if (List.range n).all (fun i => decide (env.taskFinish i ≤ timeout)) then
      let results := (List.range n).map (fun i =>
        (generate_single_image cfg refs env.savePath (env.oracles i) i
          (image_prompts.getD i ⟨"", ""⟩)).result)
      let successful := (results.filter TaskResult.isOk).length
      let failed := (results.filter TaskResult.isErr).length
      { status := if successful = n then "success" else "partial",
        total := some n, successful := some successful, failed := some failed,
        results := some results }
    else
      { status := "error",
        error := some ("Image generation timed out after " ++ toString timeout ++ " seconds"),
        total := some n, successful := some 0 }

/-! ### Pipeline state, post selection and state clearing -/

/-- A post record (one row prepared by `fetch_google_sheet_data`,
tools.py:170-200).  Fields the selector reads; `none` models an absent key. -/
structure Post where
  post_id : Option String := none
  category : Option String := none
  theme : Option String := none
  original_script : Option String := none
  rewrited_script : Option String := none
deriving Repr, DecidableEq

/-- Values stored in the shared `tool_context.state` mapping. -/
inductive Val where
  | s (v : String)
  | n (v : Nat)
  | b (v : Bool)
  | post (v : Post)
  | postList (v : List Post)
  | promptList (v : List PromptData)
  | refImgs (v : RefImages)
deriving Repr, DecidableEq

/-- The `tool_context.state` mapping, as an association list; `lookupKey`
takes the first (most recent) binding. -/
def PState := List (String × Val)

/-- `state.get(key)` / `key in state`. -/
def lookupKey : PState → String → Option Val
  | [], _ => none
  | (k, v) :: rest, key => if k = key then some v else lookupKey rest key

/-- `del state[key]` (removes every binding for the key). -/
def eraseKey : PState → String → PState
  | [], _ => []
  | (k, v) :: rest, key =>
    if k = key then eraseKey rest key else (k, v) :: eraseKey rest key

/-- `state[key] = value`. -/
def insertKey (st : PState) (key : String) (v : Val) : PState :=
  (key, v) :: eraseKey st key

/-- `tool_context` as the selector and cleaner tools see it: the state
mapping plus the `actions.escalate` flag. -/
structure Ctx where
  state : PState
  escalate : Bool

/-- `state.get('filtered_posts', [])`; any non-list value behaves like the
falsy default (the collector only ever stores a list there,
tools.py:208). -/
def getFilteredPosts (st : PState) : List Post :=
  match lookupKey st "filtered_posts" with
  | some (.postList l) => l
  | _ => []

/-- `state.get('current_post_index', 0)`. -/
def getCurrentIndex (st : PState) : Nat :=
  match lookupKey st "current_post_index" with
  | some (.n i) => i
  | _ => 0

/-- `current_post.get('rewrited_script') or current_post.get('original_script', '')`
(post_selector_tool.py:56): Python `or` falls through on an absent or empty
string. -/
def postContentText (p : Post) : String :=
  let fallback := p.original_script.getD ""
  match p.rewrited_script with
  | some s => if s = "" then fallback else s
  | none => fallback

/-- `'generation_reference_images' in state and 'style' in state.get(...)`
(post_selector_tool.py:60). -/
def hasStyleRef (st : PState) : Bool :=
  match lookupKey st "generation_reference_images" with
  | some (.refImgs r) => r.style.isSome
  | _ => false

/-- post_selector_tool.py:61, the persona analogue. -/
def hasPersonaRef (st : PState) : Bool :=
  match lookupKey st "generation_reference_images" with
  | some (.refImgs r) => r.persona.isSome
  | _ => false

/-- `state.get('input_mode') == 'text'` (post_selector_tool.py:67). -/
def isTextMode (st : PState) : Bool :=
  match lookupKey st "input_mode" with
  | some (.s m) => m = "text"
  | _ => false

/-- The dict returned by `select_current_post`. -/
inductive SelectResult where
  | err (msg : String)
  | complete (message : String)
  | ready (post_id category theme : Option String) (total_posts current_index : Nat)
deriving Repr, DecidableEq

/-- `select_current_post` (post_selector_tool.py:11-93).  Empty
`filtered_posts` returns an error dict without touching state or the
escalate flag; an exhausted index escalates and reports completion;
otherwise the current post and its derived per-item keys are written and
the counter advanced. -/
def select_current_post (ctx : Ctx) : Ctx × SelectResult :=
  let filtered := getFilteredPosts ctx.state
  if filtered.length = 0 then
    (ctx, .err "No posts available to process")
  else
    let idx := getCurrentIndex ctx.state
    if h2 : filtered.length ≤ idx then
      ({ ctx with escalate := true },
        .complete ("All " ++ toString filtered.length ++ " posts processed"))
    else
      let current := filtered.get ⟨idx, Nat.lt_of_not_le h2⟩
      let content := postContentText current
      let st := insertKey ctx.state "current_post_index" (.n (idx + 1))
      let st := insertKey st "current_post" (.post current)
      let st := insertKey st "post_content_text" (.s content)
      let st := insertKey st "has_style_reference" (.b (hasStyleRef ctx.state))
      let st := insertKey st "has_persona_reference" (.b (hasPersonaRef ctx.state))
      let st := insertKey st "is_text_mode" (.b (isTextMode ctx.state))
      ({ state := st, escalate := ctx.escalate },
        .ready current.post_id current.category current.theme filtered.length (idx + 1))

/-- post_selector_tool.py:108-114. -/
def keysToClear : List String :=
  ["current_post", "content_analysis", "creative_brief", "copy_content", "image_prompts"]

/-- `clear_post_state` (post_selector_tool.py:96-149): deletes the five
listed keys, resets `temp:images_generated_count` to 0 and sets
`actions.escalate = True`.  The source sets the flag on the success path
(line 132) and in the exception handler (line 145) alike, so the embedding
sets it unconditionally. -/
def clear_post_state (ctx : Ctx) : Ctx × List String :=
  let cleared := keysToClear.filter (fun k => (lookupKey ctx.state k).isSome)
  let st := keysToClear.foldl eraseKey ctx.state
  let st := insertKey st "temp:images_generated_count" (.n 0)
  ({ state := st, escalate := true },
    cleared ++ ["temp:images_generated_count (reset)"])

/-! ### The batch loop (`batch_processor`, orchestrator.py:168-173)

`batch_processor` is a `LoopAgent` running `post_processing_pipeline`
(orchestrator.py:150-161), a `SequentialAgent` whose first tool stage is
`select_current_post` and whose last is `clear_post_state`; the stages in
between (analysis, copy, prompt engineering, image generation, persisting)
only read and write the state mapping through external collaborators, so
they are abstracted as an arbitrary state transformer `middle`.  A
`LoopAgent` (Google ADK, not part of this repository; modelled from the
spec: "Runs SequentialPostPipeline repeatedly, at most max_iterations
times ... terminating early via an explicit escalate/stop signal") stops
before an iteration whose context already carries the escalate signal, and
runs at most `max_iterations` iterations. -/

/-- One iteration of `post_processing_pipeline`: select, the abstracted
middle stages, then clear. -/
def runPipeline (middle : PState → PState) (ctx : Ctx) : Ctx × SelectResult :=
  let (c1, res) := select_current_post ctx
  let c2 : Ctx := { state := middle c1.state, escalate := c1.escalate }
  let (c3, _) := clear_post_state c2
  (c3, res)

/-- Did the selector pick a post this iteration? -/
def SelectResult.isReady : SelectResult → Bool
  | .ready _ _ _ _ _ => true
  | _ => false

/-- Outcome of a loop run: final context, number of pipeline iterations
performed, number of iterations in which a post was actually selected. -/
structure LoopResult where
  ctx : Ctx
  iterations : Nat
  selected : Nat

/-- The `LoopAgent` iteration scheme with `fuel` remaining iterations. -/
def runLoop (middle : PState → PState) : Nat → Ctx → LoopResult
  | 0, ctx => ⟨ctx, 0, 0⟩
  | fuel + 1, ctx =>
    if ctx.escalate then ⟨ctx, 0, 0⟩
    else
      let (c, res) := runPipeline middle ctx
      let rest := runLoop middle fuel c
      ⟨rest.ctx, rest.iterations + 1, rest.selected + (if res.isReady then 1 else 0)⟩

/-- `batch_processor` (orchestrator.py:168-173): the loop with
`max_iterations = Config.BATCH_SIZE if Config.BATCH_SIZE > 0 else 100`. -/
def batch_processor (middle : PState → PState) (max_iterations : Nat) (ctx : Ctx) : LoopResult :=
  runLoop middle max_iterations ctx

/-! ### The concurrency bound (tools.py:781, 891-910)

`generate_all_images_parallel` creates
`semaphore = asyncio.Semaphore(Config.MAX_CONCURRENT_IMAGE_REQUESTS)` once
per batch (tools.py:781) and every attempt of every task wraps its remote
call in `async with semaphore:` (tools.py:891-910).  Inside the block the
call is `asyncio.wait_for(asyncio.to_thread(client.models.generate_content,
...), timeout=...)` (tools.py:897-905).  When `wait_for` times out it
cancels the awaiting coroutine, which then leaves the `async with` block
and releases its permit — but the `to_thread` worker thread cannot be
cancelled: its HTTP request stays in flight until it completes on its own,
its result discarded.  The retrying task later acquires a fresh permit and
starts a new call while the abandoned one may still be running.

The cooperative scheduling of the N task coroutines is modelled as a
transition system: each task is outside the protected region, waiting on
the semaphore, or inside the remote call holding a permit, and additionally
carries the number of its abandoned (timed-out, still-running) remote
calls.  `asyncio.Semaphore` lets a waiter proceed only while its counter is
positive, decrementing it, and re-increments on release. -/

/-- Where one task coroutine currently stands with respect to the
semaphore-protected region. -/
inductive Phase where
  | outside
  | waiting
  | inCall
deriving Repr, DecidableEq

/-- Global scheduler state for a batch of `n` task coroutines: the
semaphore counter, each task's phase, and for each task the number of its
abandoned remote calls whose worker threads are still running. -/
structure SemSys (n : Nat) where
  sem : Nat
  phase : Fin n → Phase
  abandoned : Fin n → Nat

/-- Batch start: counter at `K`, every task outside the protected region,
no abandoned calls. -/
def initSys (k n : Nat) : SemSys n := ⟨k, fun _ => Phase.outside, fun _ => 0⟩

/-- How many tasks are inside the remote call holding a permit. -/
def inCallCount {n : Nat} (s : SemSys n) : Nat :=
  ∑ i : Fin n, if s.phase i = Phase.inCall then 1 else 0

/-- How many abandoned remote calls are still running. -/
def abandonedCount {n : Nat} (s : SemSys n) : Nat :=
  ∑ i : Fin n, s.abandoned i

/-- How many network calls are actually in flight: permit-holding calls
plus abandoned calls whose threads have not yet finished. -/
def inFlightCount {n : Nat} (s : SemSys n) : Nat :=
  inCallCount s + abandonedCount s

/-- One scheduler step: a task reaches the `async with semaphore:` line and
starts waiting; a waiting task acquires the semaphore — only enabled while
the counter is positive — and enters the remote call; a call that answers
within the per-attempt timeout completes and releases the permit; a call
that hits the per-attempt timeout is abandoned — the coroutine releases the
permit and leaves (to fail or back off and retry), while the
non-cancellable worker thread keeps the network call in flight; an
abandoned call's thread eventually finishes on its own.  All other
activity (prompt building, backoff sleeps, result handling) leaves the
semaphore state unchanged. -/
inductive SemStep (n : Nat) : SemSys n → SemSys n → Prop where
  | request (s : SemSys n) (i : Fin n) :
      s.phase i = Phase.outside →
      SemStep n s ⟨s.sem, Function.update s.phase i Phase.waiting, s.abandoned⟩
  | acquire (s : SemSys n) (i : Fin n) :
      s.phase i = Phase.waiting → 0 < s.sem →
      SemStep n s ⟨s.sem - 1, Function.update s.phase i Phase.inCall, s.abandoned⟩
  | complete (s : SemSys n) (i : Fin n) :
      s.phase i = Phase.inCall →
      SemStep n s ⟨s.sem + 1, Function.update s.phase i Phase.outside, s.abandoned⟩
  | timeoutAbandon (s : SemSys n) (i : Fin n) :
      s.phase i = Phase.inCall →
      SemStep n s ⟨s.sem + 1, Function.update s.phase i Phase.outside,
        Function.update s.abandoned i (s.abandoned i + 1)⟩
  | finishAbandoned (s : SemSys n) (i : Fin n) :
      0 < s.abandoned i →
      SemStep n s ⟨s.sem, s.phase, Function.update s.abandoned i (s.abandoned i - 1)⟩

/-- States reachable from the batch start by any interleaving. -/
inductive SemReachable (k n : Nat) : SemSys n → Prop where
  | init : SemReachable k n (initSys k n)
  | step {s s' : SemSys n} : SemReachable k n s → SemStep n s s' → SemReachable k n s'

/-! ### Concrete instances used by witnesses and counterexamples

`cfgDefault` is the configuration with every knob at its config.py default:
`MAX_CONCURRENT_IMAGE_REQUESTS = 3`, `RETRY_ATTEMPTS = 3`, `RETRY_DELAY = 2`,
`IMAGE_GENERATION_TIMEOUT = 60`, `STYLE = ""`. -/

def cfgDefault : GenCfg := ⟨3, 3, 2, 60, ""⟩

/-- No reference images in state. -/
def noRefs : RefImages := ⟨none, none⟩

/-- A well-formed remote response carrying a 3-byte image. -/
def okResp : RemoteResponse := ⟨[⟨some [⟨some [7, 8, 9]⟩], "STOP"⟩]⟩

/-- An attempt whose remote call answers in 5 seconds with an image. -/
def okAttempt : Attempt := ⟨5, okResp⟩

/-- An attempt whose remote call hangs for 70 seconds (past the 60-second
per-image timeout); its response is never seen. -/
def slowAttempt : Attempt := ⟨70, ⟨[]⟩⟩

/-- Environment in which every attempt of every task times out. -/
def oracleAllSlow : String → Nat → Attempt := fun _ _ => slowAttempt

/-- Environment in which every attempt succeeds promptly. -/
def oracleAllOk : String → Nat → Attempt := fun _ _ => okAttempt

/-- Environment in which attempts 0 and 1 time out and attempt 2 succeeds. -/
def oracleThirdTry : String → Nat → Attempt :=
  fun _ a => if a < 2 then slowAttempt else okAttempt

/-- A concrete storage collaborator. -/
def savePathOf : Nat → String := fun i => "img" ++ toString i

/-- Ten distinct prompts. -/
def promptsTen : List PromptData :=
  (List.range 10).map (fun i => ⟨"prompt" ++ toString i, "text" ++ toString i⟩)

/-- A batch environment in which every task would succeed, but task 9 only
finishes 120 seconds in — past the 110-second deadline for ten prompts at
concurrency 3 — while task 0 is already done after 5 seconds. -/
def envLate : BatchEnv :=
  ⟨fun _ => oracleAllOk, savePathOf, fun i => if i = 9 then 120 else 5⟩

/-- A batch environment in which every task succeeds 5 seconds in. -/
def envPrompt : BatchEnv := ⟨fun _ => oracleAllOk, savePathOf, fun _ => 5⟩

/-- A scheduler state of a single-task batch at configured bound `K = 1`
in which the task holds the (only) permit for a fresh remote call while its
previous, timed-out call's worker thread is still running: two network
calls in flight.  Reached by acquire, timeout-abandon, re-acquire. -/
def overCommitState : SemSys 1 := ⟨0, fun _ => Phase.inCall, fun _ => 1⟩

/-- A post whose rewritten script is `"hello"`. -/
def samplePost : Post := { post_id := some "id0", rewrited_script := some "hello" }

/-- A context holding exactly one pending post. -/
def ctxOnePost : Ctx := ⟨[("filtered_posts", .postList [samplePost])], false⟩

/-- A context whose data-source query produced an empty item list. -/
def ctxNoPosts : Ctx := ⟨[("filtered_posts", .postList [])], false⟩

/-! ### Lemmas about the retry loop -/

theorem attemptRun_dur_le (cfg : GenCfg) (a : Attempt) :
    (attemptRun cfg a).2 ≤ cfg.image_timeout := by
  unfold attemptRun
  by_cases h : cfg.image_timeout < a.apiDur
  · simp [h]
  · simp [h]; omega

theorem retryFrom_attemptsUsed_le (cfg : GenCfg) (idx : Nat) (o : Nat → Attempt)
    (sp : Nat → String) (t : String) :
    ∀ fuel a, (retryFrom cfg idx o sp t fuel a).attemptsUsed ≤ fuel := by
  intro fuel
  induction fuel with
  | zero => intro a; simp [retryFrom]
  | succ n ih =>
    intro a
    unfold retryFrom
    rcases h : attemptRun cfg (o a) with ⟨res, d⟩
    cases res with
    | ok bytes => simp
    | error e =>
      by_cases hlt : a < cfg.max_retries - 1
      · simp only [hlt, if_true]
        exact Nat.succ_le_succ (ih (a + 1))
      · simp [hlt]

theorem retryFrom_attemptsUsed_pos (cfg : GenCfg) (idx : Nat) (o : Nat → Attempt)
    (sp : Nat → String) (t : String) :
    ∀ fuel a, 1 ≤ fuel → 1 ≤ (retryFrom cfg idx o sp t fuel a).attemptsUsed := by
  intro fuel a hfuel
  match fuel, hfuel with
  | n + 1, _ =>
    unfold retryFrom
    rcases h : attemptRun cfg (o a) with ⟨res, d⟩
    cases res with
    | ok bytes => simp
    | error e =>
      by_cases hlt : a < cfg.max_retries - 1 <;> simp [hlt]

theorem retryFrom_sleeps (cfg : GenCfg) (idx : Nat) (o : Nat → Attempt)
    (sp : Nat → String) (t : String) :
    ∀ fuel a, a + fuel = cfg.max_retries →
      (retryFrom cfg idx o sp t fuel a).sleeps =
        (List.range ((retryFrom cfg idx o sp t fuel a).attemptsUsed - 1)).map
          (fun j => cfg.base_delay * 2 ^ (a + j)) := by
  intro fuel
  induction fuel with
  | zero => intro a _; simp [retryFrom]
  | succ n ih =>
    intro a hinv
    unfold retryFrom
    rcases h : attemptRun cfg (o a) with ⟨res, d⟩
    cases res with
    | ok bytes => simp
    | error e =>
      by_cases hlt : a < cfg.max_retries - 1
      · simp only [hlt, if_true]
        have hn : 1 ≤ n := by omega
        have hpos := retryFrom_attemptsUsed_pos cfg idx o sp t n (a + 1) hn
        have ihs := ih (a + 1) (by omega)
        set rest := retryFrom cfg idx o sp t n (a + 1) with hrest
        obtain ⟨m, hm⟩ : ∃ m, rest.attemptsUsed = m + 1 :=
          ⟨rest.attemptsUsed - 1, by omega⟩
        simp only [hm, Nat.add_sub_cancel] at ihs ⊢
        rw [ihs, List.range_succ_eq_map, List.map_cons, List.map_map]
        simp only [List.cons.injEq]
        refine ⟨by simp, List.map_congr_left ?_⟩
        intro j _
        simp only [Function.comp_apply, Nat.succ_eq_add_one]
        have hj : a + 1 + j = a + (j + 1) := by omega
        rw [hj]
      · simp [hlt]

theorem retryFrom_sleeps_sum_le (cfg : GenCfg) (idx : Nat) (o : Nat → Attempt)
    (sp : Nat → String) (t : String) :
    ∀ fuel a, (retryFrom cfg idx o sp t fuel a).sleeps.sum ≤
      (retryFrom cfg idx o sp t fuel a).elapsed := by
  intro fuel
  induction fuel with
  | zero => intro a; simp [retryFrom]
  | succ n ih =>
    intro a
    unfold retryFrom
    rcases h : attemptRun cfg (o a) with ⟨res, d⟩
    cases res with
    | ok bytes => simp
    | error e =>
      by_cases hlt : a < cfg.max_retries - 1
      · simp only [hlt, if_true, List.sum_cons]
        have := ih (a + 1)
        omega
      · simp [hlt]

theorem retryFrom_elapsed_le (cfg : GenCfg) (idx : Nat) (o : Nat → Attempt)
    (sp : Nat → String) (t : String) :
    ∀ fuel a, (retryFrom cfg idx o sp t fuel a).elapsed ≤
      fuel * cfg.image_timeout + (retryFrom cfg idx o sp t fuel a).sleeps.sum := by
  intro fuel
  induction fuel with
  | zero => intro a; simp [retryFrom]
  | succ n ih =>
    intro a
    unfold retryFrom
    rcases h : attemptRun cfg (o a) with ⟨res, d⟩
    have hd : d ≤ cfg.image_timeout := by
      have := attemptRun_dur_le cfg (o a)
      rw [h] at this
      exact this
    cases res with
    | ok bytes =>
      simp only [List.sum_nil, Nat.add_zero, Nat.succ_mul]
      omega
    | error e =>
      by_cases hlt : a < cfg.max_retries - 1
      · simp only [hlt, if_true, List.sum_cons, Nat.succ_mul]
        have := ih (a + 1)
        omega
      · simp only [hlt, if_false, List.sum_nil, Nat.add_zero, Nat.succ_mul]
        omega

theorem retryFrom_result_index (cfg : GenCfg) (idx : Nat) (o : Nat → Attempt)
    (sp : Nat → String) (t : String) :
    ∀ fuel a, (retryFrom cfg idx o sp t fuel a).result.index = idx := by
  intro fuel
  induction fuel with
  | zero => intro a; simp [retryFrom, TaskResult.index]
  | succ n ih =>
    intro a
    unfold retryFrom
    rcases h : attemptRun cfg (o a) with ⟨res, d⟩
    cases res with
    | ok bytes => simp [TaskResult.index]
    | error e =>
      by_cases hlt : a < cfg.max_retries - 1
      · simp only [hlt, if_true]
        exact ih (a + 1)
      · simp [hlt, TaskResult.index]

theorem retryFrom_all_fail (cfg : GenCfg) (idx : Nat) (o : Nat → Attempt)
    (sp : Nat → String) (t : String) :
    ∀ fuel a, a + fuel = cfg.max_retries → 1 ≤ fuel →
      (∀ b, b < cfg.max_retries → ∃ e, (attemptRun cfg (o b)).1 = Except.error e) →
      ∀ msg, (attemptRun cfg (o (cfg.max_retries - 1))).1 = Except.error msg →
      (retryFrom cfg idx o sp t fuel a).result = .failure idx msg := by
  intro fuel
  induction fuel with
  | zero => intro a _ hfuel; omega
  | succ n ih =>
    intro a hinv _ hall msg hmsg
    unfold retryFrom
    rcases h : attemptRun cfg (o a) with ⟨res, d⟩
    obtain ⟨e, he⟩ := hall a (by omega)
    rw [h] at he
    cases res with
    | ok bytes => exact absurd he (by simp)
    | error e2 =>
      by_cases hlt : a < cfg.max_retries - 1
      · simp only [hlt, if_true]
        exact ih (a + 1) (by omega) (by omega) hall msg hmsg
      · simp only [hlt, if_false]
        have ha : a = cfg.max_retries - 1 := by omega
        rw [ha] at h
        rw [h] at hmsg
        simp only [Except.error.injEq] at hmsg
        rw [hmsg]

theorem retryFrom_eventual_success (cfg : GenCfg) (idx : Nat) (o : Nat → Attempt)
    (sp : Nat → String) (t : String) :
    ∀ fuel a, a + fuel = cfg.max_retries → 1 ≤ fuel →
      (∀ b, b + 1 < cfg.max_retries → ∃ e, (attemptRun cfg (o b)).1 = Except.error e) →
      (∃ pr, (attemptRun cfg (o (cfg.max_retries - 1))).1 = Except.ok pr) →
      (retryFrom cfg idx o sp t fuel a).result.isOk = true ∧
      (retryFrom cfg idx o sp t fuel a).attemptsUsed = fuel := by
  intro fuel
  induction fuel with
  | zero => intro a _ hfuel; omega
  | succ n ih =>
    intro a hinv _ hfail hok
    unfold retryFrom
    rcases h : attemptRun cfg (o a) with ⟨res, d⟩
    by_cases hn : n = 0
    · have ha : a = cfg.max_retries - 1 := by omega
      obtain ⟨pr, hpr⟩ := hok
      rw [ha] at h
      rw [h] at hpr
      simp only at hpr
      subst hpr
      simp [hn, TaskResult.isOk]
    · obtain ⟨e, he⟩ := hfail a (by omega)
      rw [h] at he
      cases res with
      | ok bytes => exact absurd he (by simp)
      | error e2 =>
        have hlt : a < cfg.max_retries - 1 := by omega
        simp only [hlt, if_true]
        have := ih (a + 1) (by omega) (by omega) hfail hok
        exact ⟨this.1, by omega⟩

/-! ### Lemmas about the semaphore transition system -/

theorem phase_ind_update {n : Nat} (ph : Fin n → Phase) (i : Fin n) (v : Phase) :
    (fun j => if Function.update ph i v j = Phase.inCall then (1 : Nat) else 0)
      = Function.update (fun j => if ph j = Phase.inCall then (1 : Nat) else 0) i
          (if v = Phase.inCall then 1 else 0) := by
  funext j
  by_cases hj : j = i
  · subst hj; simp
  · simp [Function.update_noteq hj]

theorem sum_update_ind {n : Nat} (ph : Fin n → Phase) (i : Fin n) (v : Phase) :
    (∑ j : Fin n, if Function.update ph i v j = Phase.inCall then (1 : Nat) else 0)
      + (if ph i = Phase.inCall then (1 : Nat) else 0)
    = (∑ j : Fin n, if ph j = Phase.inCall then (1 : Nat) else 0)
      + (if v = Phase.inCall then (1 : Nat) else 0) := by
  rw [phase_ind_update]
  rw [Finset.sum_update_of_mem (Finset.mem_univ i)]
  rw [Finset.sum_eq_sum_diff_singleton_add (Finset.mem_univ i)
        (fun j => if ph j = Phase.inCall then (1 : Nat) else 0)]
  omega

theorem sem_invariant {k n : Nat} {s : SemSys n} (h : SemReachable k n s) :
    s.sem + inCallCount s = k := by
  induction h with
  | init => simp [initSys, inCallCount]
  | @step s1 s2 _ hstep ih =>
    cases hstep with
    | request i hfrom =>
      have hupd := sum_update_ind s1.phase i Phase.waiting
      rw [hfrom] at hupd
      simp only [reduceCtorEq, if_false, Nat.add_zero] at hupd
      unfold inCallCount at ih ⊢
      simp only at ih ⊢
      omega
    | acquire i hfrom hsem =>
      have hupd := sum_update_ind s1.phase i Phase.inCall
      rw [hfrom] at hupd
      simp only [reduceCtorEq, if_false, if_true, Nat.add_zero] at hupd
      unfold inCallCount at ih ⊢
      simp only at ih ⊢
      omega
    | complete i hfrom =>
      have hupd := sum_update_ind s1.phase i Phase.outside
      rw [hfrom] at hupd
      simp only [reduceCtorEq, if_false, if_true, Nat.add_zero] at hupd
      unfold inCallCount at ih ⊢
      simp only at ih ⊢
      omega
    | timeoutAbandon i hfrom =>
      have hupd := sum_update_ind s1.phase i Phase.outside
      rw [hfrom] at hupd
      simp only [reduceCtorEq, if_false, if_true, Nat.add_zero] at hupd
      unfold inCallCount at ih ⊢
      simp only at ih ⊢
      omega
    | finishAbandoned i hpos =>
      unfold inCallCount at ih ⊢
      simp only at ih ⊢
      omega

/-! ### Lemmas about batch aggregation -/

theorem filter_ok_add_filter_err (rs : List TaskResult) :
    (rs.filter TaskResult.isOk).length + (rs.filter TaskResult.isErr).length = rs.length := by
  induction rs with
  | nil => rfl
  | cons r rest ih =>
    cases r <;>
      simp only [List.filter, TaskResult.isOk, TaskResult.isErr, List.length_cons] <;>
      omega

theorem generate_single_image_index (cfg : GenCfg) (refs : RefImages) (sp : Nat → String)
    (o : String → Nat → Attempt) (idx : Nat) (pd : PromptData) :
    (generate_single_image cfg refs sp o idx pd).result.index = idx :=
  retryFrom_result_index cfg idx (o (buildFullText refs cfg.style pd.p)) sp pd.t
    cfg.max_retries 0

/-- The value `generate_all_images_parallel` returns when the prompt list is
non-empty and every task finishes within the computed deadline
(tools.py:1004-1021). -/
theorem batch_completes (cfg : GenCfg) (prompts : List PromptData) (refs : RefImages)
    (env : BatchEnv) (hne : prompts.length ≠ 0)
    (hfin : ∀ i, i < prompts.length → env.taskFinish i ≤ batchTimeout cfg prompts.length) :
    generate_all_images_parallel cfg prompts refs env =
      (let results := (List.range prompts.length).map (fun i =>
        (generate_single_image cfg refs env.savePath (env.oracles i) i
          (prompts.getD i ⟨"", ""⟩)).result)
       { status := if (results.filter TaskResult.isOk).length = prompts.length
                     then "success" else "partial",
         total := some prompts.length,
         successful := some (results.filter TaskResult.isOk).length,
         failed := some (results.filter TaskResult.isErr).length,
         results := some results }) := by
  unfold generate_all_images_parallel
  have hall : (List.range prompts.length).all
      (fun i => decide (env.taskFinish i ≤ batchTimeout cfg prompts.length)) = true := by
    simp only [List.all_eq_true, List.mem_range, decide_eq_true_eq]
    exact fun i hi => hfin i hi
  simp only [hne, if_false, hall, if_true]

/-- The value `generate_all_images_parallel` returns when some task is
still unfinished at the deadline (tools.py:992-999). -/
theorem batch_deadline (cfg : GenCfg) (prompts : List PromptData) (refs : RefImages)
    (env : BatchEnv) (hne : prompts.length ≠ 0)
    (hlate : ∃ i, i < prompts.length ∧
      batchTimeout cfg prompts.length < env.taskFinish i) :
    generate_all_images_parallel cfg prompts refs env =
      { status := "error",
        error := some ("Image generation timed out after "
          ++ toString (batchTimeout cfg prompts.length) ++ " seconds"),
        total := some prompts.length, successful := some 0 } := by
  unfold generate_all_images_parallel
  obtain ⟨i, hi, hl⟩ := hlate
  have hall : (List.range prompts.length).all
      (fun j => decide (env.taskFinish j ≤ batchTimeout cfg prompts.length)) = false := by
    rw [← Bool.not_eq_true]
    intro hc
    rw [List.all_eq_true] at hc
    have := hc i (List.mem_range.mpr hi)
    simp only [decide_eq_true_eq] at this
    omega
  simp only [hne, if_false, hall, Bool.false_eq_true]

/-! ### Lemmas about the state mapping and the loop -/

theorem lookupKey_eraseKey_self (st : PState) (k : String) :
    lookupKey (eraseKey st k) k = none := by
  induction st with
  | nil => rfl
  | cons p rest ih =>
    rcases p with ⟨k1, v1⟩
    by_cases h : k1 = k
    · simp [eraseKey, h, ih]
    · simp [eraseKey, lookupKey, h, ih]

theorem lookupKey_eraseKey_ne (st : PState) (k k' : String) (h : k' ≠ k) :
    lookupKey (eraseKey st k) k' = lookupKey st k' := by
  induction st with
  | nil => rfl
  | cons p rest ih =>
    rcases p with ⟨k1, v1⟩
    by_cases h1 : k1 = k
    · subst h1
      have h2 : ¬(k1 = k') := fun hh => h (hh ▸ rfl)
      simp [eraseKey, lookupKey, h2, ih]
    · by_cases h2 : k1 = k'
      · simp [eraseKey, lookupKey, h1, h2, h]
      · simp [eraseKey, lookupKey, h1, h2, ih]

theorem lookupKey_insertKey_self (st : PState) (k : String) (v : Val) :
    lookupKey (insertKey st k v) k = some v := by
  simp [insertKey, lookupKey]

theorem lookupKey_insertKey_ne (st : PState) (k : String) (v : Val) (k' : String)
    (h : k' ≠ k) :
    lookupKey (insertKey st k v) k' = lookupKey st k' := by
  have h2 : ¬(k = k') := fun hh => h (hh ▸ rfl)
  simp only [insertKey, lookupKey, h2, if_false]
  exact lookupKey_eraseKey_ne st k k' h

theorem clear_post_state_escalates (c : Ctx) :
    (clear_post_state c).1.escalate = true := rfl

theorem runPipeline_escalates (middle : PState → PState) (ctx : Ctx) :
    (runPipeline middle ctx).1.escalate = true := by
  unfold runPipeline
  rcases hsel : select_current_post ctx with ⟨c1, res⟩
  rfl

theorem runPipeline_snd (middle : PState → PState) (ctx : Ctx) :
    (runPipeline middle ctx).2 = (select_current_post ctx).2 := by
  unfold runPipeline
  rcases hsel : select_current_post ctx with ⟨c1, res⟩
  rfl

theorem runLoop_stopped (middle : PState → PState) (m : Nat) (c : Ctx)
    (h : c.escalate = true) : runLoop middle m c = ⟨c, 0, 0⟩ := by
  cases m with
  | zero => rfl
  | succ n => simp [runLoop, h]

theorem runLoop_one_iteration (middle : PState → PState) (m : Nat) (ctx : Ctx)
    (hesc : ctx.escalate = false) (hm : 1 ≤ m) :
    runLoop middle m ctx =
      ⟨(runPipeline middle ctx).1, 1,
        if (select_current_post ctx).2.isReady then 1 else 0⟩ := by
  obtain ⟨m0, rfl⟩ : ∃ m0, m = m0 + 1 := ⟨m - 1, by omega⟩
  unfold runLoop
  rcases hpipe : runPipeline middle ctx with ⟨c, res⟩
  have hc : c.escalate = true := by
    have := runPipeline_escalates middle ctx
    rw [hpipe] at this
    exact this
  have hres : res = (select_current_post ctx).2 := by
    have := runPipeline_snd middle ctx
    rw [hpipe] at this
    exact this
  simp only [hesc, Bool.false_eq_true, if_false, hpipe, runLoop_stopped middle m0 c hc, hres]
  simp

theorem select_empty (ctx : Ctx) (h : getFilteredPosts ctx.state = []) :
    select_current_post ctx = (ctx, .err "No posts available to process") := by
  unfold select_current_post
  simp [h]

/-! ### The claims -/

/-- C6: for every prompt the final request text is built from the prompt
text as follows: a reference-style asset prepends the style-reference
instruction and suppresses the global style suffix (the request then ends
at the prompt text); a reference-persona asset prepends the
preserve-facial-features instruction; otherwise a non-empty `style_suffix`
is appended verbatim after the prompt text. -/
theorem c6_request_text (refs : RefImages) (style prompt_text : String) :
    buildPromptParts refs style prompt_text =
      (if refs.style.isSome then [styleRefInstruction] else []) ++
      (if refs.persona.isSome then [personaRefInstruction] else []) ++
      [prompt_text] ++
      (if refs.style.isNone ∧ style ≠ "" then [style] else []) ∧
    (refs.style.isSome = true →
      buildPromptParts refs style prompt_text =
        (if refs.persona.isSome then [styleRefInstruction, personaRefInstruction]
          else [styleRefInstruction]) ++ [prompt_text]) := by
  obtain ⟨s, p⟩ := refs
  constructor
  · cases s <;> cases p <;> by_cases hs : style = "" <;>
      simp [buildPromptParts, RefImages.nonempty, hs]
  · intro h
    cases s <;> cases p <;> simp_all [buildPromptParts, RefImages.nonempty]

/-- Witness for C6: with a style reference present, the request is the
style instruction, then the prompt, and the global suffix is dropped. -/
theorem c6_request_text_witness :
    buildPromptParts ⟨some [1], none⟩ "global suffix" "a cat" =
      [styleRefInstruction, "a cat"] := by
  simpa using (c6_request_text ⟨some [1], none⟩ "global suffix" "a cat").2 rfl

/-- C3 as stated is false at this input: with the default configuration
(per-item timeout 60 s, 3 attempts, base delay 2 s) and every attempt of
the remote call hanging past the timeout, the task is not aborted once its
cumulative retrying passes 60 s — it runs all three attempts plus the
backoff sleeps, 186 s in total, before returning the timeout error. -/
theorem c3_counterexample :
    (generate_single_image cfgDefault noRefs savePathOf oracleAllSlow 0 ⟨"p", "t"⟩).elapsed
        = 186 ∧
    cfgDefault.image_timeout <
      (generate_single_image cfgDefault noRefs savePathOf oracleAllSlow 0 ⟨"p", "t"⟩).elapsed ∧
    (generate_single_image cfgDefault noRefs savePathOf oracleAllSlow 0
        ⟨"p", "t"⟩).attemptsUsed = 3 ∧
    (generate_single_image cfgDefault noRefs savePathOf oracleAllSlow 0 ⟨"p", "t"⟩).result
        = .failure 0 "Image generation timed out after 60s" :=
  ⟨rfl, by decide, rfl, rfl⟩

/-- C3 corrected: the per-item timeout is applied separately around each
individual attempt of the retrying call — every attempt consumes at most
`image_timeout` seconds, a timed-out attempt counting as a retryable
failure — so the whole retry sequence is bounded by `max_attempts` times
the per-item timeout plus the backoff sleeps, not by the per-item timeout
itself. -/
theorem c3_per_attempt_timeout (cfg : GenCfg) (refs : RefImages) (savePath : Nat → String)
    (oracle : String → Nat → Attempt) (idx : Nat) (pd : PromptData) (a : Attempt) :
    (attemptRun cfg a).2 ≤ cfg.image_timeout ∧
    (generate_single_image cfg refs savePath oracle idx pd).elapsed ≤
      cfg.max_retries * cfg.image_timeout +
        (generate_single_image cfg refs savePath oracle idx pd).sleeps.sum :=
  ⟨attemptRun_dur_le cfg a,
    retryFrom_elapsed_le cfg idx (oracle (buildFullText refs cfg.style pd.p)) savePath pd.t
      cfg.max_retries 0⟩

/-- C4: retry attempts for one task are strictly sequential (the embedding
is the sequential loop of tools.py:793-972) and bounded by `max_retries` in
total; the sleep after the (j+1)-st failure is `base_delay * 2 ^ j`
(i.e. `base_delay * 2 ^ (attempt - 1)` for the 1-based attempt number); if
every attempt fails, the recorded outcome carries the last attempt's error
message; and a task whose first `max_retries - 1` attempts fail and whose
last succeeds is recorded as successful with total elapsed time at least
the sum of all backoff delays `base_delay * (2^0 + ... + 2^(max_retries-2))`. -/
theorem c4_retry_backoff (cfg : GenCfg) (refs : RefImages) (savePath : Nat → String)
    (oracle : String → Nat → Attempt) (idx : Nat) (pd : PromptData)
    (hmax : 1 ≤ cfg.max_retries) :
    (generate_single_image cfg refs savePath oracle idx pd).attemptsUsed ≤ cfg.max_retries ∧
    (generate_single_image cfg refs savePath oracle idx pd).sleeps =
      (List.range
          ((generate_single_image cfg refs savePath oracle idx pd).attemptsUsed - 1)).map
        (fun j => cfg.base_delay * 2 ^ j) ∧
    ((∀ b, b < cfg.max_retries →
        ∃ e, (attemptRun cfg (oracle (buildFullText refs cfg.style pd.p) b)).1
          = Except.error e) →
      ∀ msg,
        (attemptRun cfg (oracle (buildFullText refs cfg.style pd.p)
            (cfg.max_retries - 1))).1 = Except.error msg →
        (generate_single_image cfg refs savePath oracle idx pd).result
          = .failure idx msg) ∧
    ((∀ b, b + 1 < cfg.max_retries →
        ∃ e, (attemptRun cfg (oracle (buildFullText refs cfg.style pd.p) b)).1
          = Except.error e) →
      (∃ pr, (attemptRun cfg (oracle (buildFullText refs cfg.style pd.p)
          (cfg.max_retries - 1))).1 = Except.ok pr) →
        (generate_single_image cfg refs savePath oracle idx pd).result.isOk = true ∧
        ((List.range (cfg.max_retries - 1)).map (fun j => cfg.base_delay * 2 ^ j)).sum ≤
          (generate_single_image cfg refs savePath oracle idx pd).elapsed) := by
  refine ⟨retryFrom_attemptsUsed_le cfg idx _ savePath pd.t cfg.max_retries 0, ?_, ?_, ?_⟩
  · have h := retryFrom_sleeps cfg idx (oracle (buildFullText refs cfg.style pd.p))
      savePath pd.t cfg.max_retries 0 (by omega)
    simpa using h
  · intro hall msg hmsg
    exact retryFrom_all_fail cfg idx _ savePath pd.t cfg.max_retries 0 (by omega) hmax
      hall msg hmsg
  · intro hfail hok
    have h := retryFrom_eventual_success cfg idx
      (oracle (buildFullText refs cfg.style pd.p)) savePath pd.t cfg.max_retries 0
      (by omega) hmax hfail hok
    refine ⟨h.1, ?_⟩
    have hs := retryFrom_sleeps cfg idx (oracle (buildFullText refs cfg.style pd.p))
      savePath pd.t cfg.max_retries 0 (by omega)
    have hsum := retryFrom_sleeps_sum_le cfg idx
      (oracle (buildFullText refs cfg.style pd.p)) savePath pd.t cfg.max_retries 0
    rw [hs, h.2] at hsum
    simpa using hsum

/-- Witness for C4 at the default configuration with two timed-out attempts
followed by a success. -/
theorem c4_retry_backoff_witness :
    1 ≤ cfgDefault.max_retries ∧
    (generate_single_image cfgDefault noRefs savePathOf oracleThirdTry 0
      ⟨"p", "t"⟩).attemptsUsed ≤ cfgDefault.max_retries :=
  ⟨by decide,
    (c4_retry_backoff cfgDefault noRefs savePathOf oracleThirdTry 0 ⟨"p", "t"⟩
      (by decide)).1⟩

/-- C1 as stated is false at this input: with ten prompts at concurrency 3
the deadline is 110 s; task 9 finishes at 120 s while task 0 finished
successfully at 5 s, yet the returned summary reports `successful = 0` and
carries no per-task results at all — the completed task's success is not
retained in the batch summary. -/
theorem c1_counterexample :
    generate_all_images_parallel cfgDefault promptsTen noRefs envLate =
      { status := "error",
        error := some "Image generation timed out after 110 seconds",
        total := some 10, successful := some 0 } ∧
    (generate_all_images_parallel cfgDefault promptsTen noRefs envLate).results = none ∧
    envLate.taskFinish 0 ≤ batchTimeout cfgDefault promptsTen.length ∧
    (generate_single_image cfgDefault noRefs envLate.savePath (envLate.oracles 0) 0
      (promptsTen.getD 0 ⟨"", ""⟩)).result.isOk = true :=
  ⟨rfl, rfl, by decide, rfl⟩

/-- C1 corrected: if the overall batch deadline elapses before all tasks
finish, the generator returns a batch-level timeout error reporting
`total = N` and `successful = 0` and containing no per-task results:
outcomes of tasks that completed before the deadline are discarded from the
returned summary (only their side effects, such as saved image files,
persist). -/
theorem c1_deadline_discards_results (cfg : GenCfg) (prompts : List PromptData)
    (refs : RefImages) (env : BatchEnv) (hne : prompts.length ≠ 0)
    (hlate : ∃ i, i < prompts.length ∧
      batchTimeout cfg prompts.length < env.taskFinish i) :
    generate_all_images_parallel cfg prompts refs env =
      { status := "error",
        error := some ("Image generation timed out after "
          ++ toString (batchTimeout cfg prompts.length) ++ " seconds"),
        total := some prompts.length, successful := some 0 } ∧
    (generate_all_images_parallel cfg prompts refs env).successful = some 0 ∧
    (generate_all_images_parallel cfg prompts refs env).results = none := by
  have h := batch_deadline cfg prompts refs env hne hlate
  exact ⟨h, by rw [h], by rw [h]⟩

/-- Witness for C1 at the concrete late-task environment. -/
theorem c1_deadline_discards_results_witness :
    (generate_all_images_parallel cfgDefault promptsTen noRefs envLate).successful
      = some 0 :=
  (c1_deadline_discards_results cfgDefault promptsTen noRefs envLate (by decide)
    ⟨9, by decide, by decide⟩).2.1

/-- C2 as stated is false at this input: per-task entries carry the 0-based
task index.  For a singleton batch that completes in time, the unique entry
has index 0, which does not lie in [1, 1]. -/
theorem c2_counterexample :
    (generate_all_images_parallel cfgDefault [⟨"p", "t"⟩] noRefs envPrompt).results =
      some [.success 0 "img0" 3 "t"] ∧
    ¬(1 ≤ (TaskResult.success 0 "img0" 3 "t").index) :=
  ⟨rfl, by decide⟩

/-- C2 corrected: for every non-empty prompt list of length N and
concurrency bound K ≥ 1, when the batch deadline is not exceeded the
summary reports `total = N`, carries exactly N per-task entries whose
`index` fields are exactly `0, 1, ..., N-1` — each a unique 0-based index
identifying its input prompt, no task silently dropped — and
`successful + failed = N`. -/
theorem c2_per_task_complete (cfg : GenCfg) (prompts : List PromptData)
    (refs : RefImages) (env : BatchEnv) (_hK : 1 ≤ cfg.max_concurrent)
    (hne : prompts.length ≠ 0)
    (hfin : ∀ i, i < prompts.length →
      env.taskFinish i ≤ batchTimeout cfg prompts.length) :
    ∃ rs,
      (generate_all_images_parallel cfg prompts refs env).results = some rs ∧
      (generate_all_images_parallel cfg prompts refs env).total = some prompts.length ∧
      rs.length = prompts.length ∧
      rs.map TaskResult.index = List.range prompts.length ∧
      ∃ s f,
        (generate_all_images_parallel cfg prompts refs env).successful = some s ∧
        (generate_all_images_parallel cfg prompts refs env).failed = some f ∧
        s + f = prompts.length := by
  have h := batch_completes cfg prompts refs env hne hfin
  rw [h]
  dsimp only
  refine ⟨_, rfl, rfl, by simp, ?_, _, _, rfl, rfl, ?_⟩
  · rw [List.map_map]
    apply List.ext_getElem
    · simp
    · intro i h1 h2
      simp [generate_single_image_index]
  · rw [filter_ok_add_filter_err]
    simp

/-- Witness for C2 with ten prompts all finishing in time. -/
theorem c2_per_task_complete_witness :
    ∃ rs, (generate_all_images_parallel cfgDefault promptsTen noRefs envPrompt).results
        = some rs ∧ rs.length = 10 := by
  obtain ⟨rs, h1, _, h3, _⟩ := c2_per_task_complete cfgDefault promptsTen noRefs envPrompt
    (by decide) (by decide)
    (fun i _ => by show (5 : Nat) ≤ batchTimeout cfgDefault promptsTen.length; decide)
  exact ⟨rs, h1, by simpa [promptsTen] using h3⟩

theorem SemReachable_of_eq {k n : Nat} {s s' : SemSys n} (h : SemReachable k n s)
    (hsem : s.sem = s'.sem) (hphase : ∀ i, s.phase i = s'.phase i)
    (hab : ∀ i, s.abandoned i = s'.abandoned i) : SemReachable k n s' := by
  have heq : s = s' := by
    cases s
    cases s'
    simp only [SemSys.mk.injEq]
    exact ⟨hsem, funext hphase, funext hab⟩
  exact heq ▸ h

/-- C5 as stated is false of the program: a per-attempt `wait_for` timeout
releases the permit while the non-cancellable `to_thread` worker keeps its
network call in flight, and the retry acquires a fresh permit
(tools.py:891-907).  With configured bound K = 1 and a single task, the
interleaving acquire, timeout-abandon, re-acquire reaches
`overCommitState`, where two network calls are in flight — more than K. -/
theorem c5_counterexample :
    SemReachable 1 1 overCommitState ∧ inFlightCount overCommitState = 2 ∧
    ¬(inFlightCount overCommitState ≤ 1) := by
  have h0 : SemReachable 1 1 (initSys 1 1) := SemReachable.init
  have h1 := h0.step (SemStep.request (initSys 1 1) 0 rfl)
  have h2 := h1.step (SemStep.acquire _ 0 (by simp) (by simp [initSys]))
  have h3 := h2.step (SemStep.timeoutAbandon _ 0 (by simp))
  have h4 := h3.step (SemStep.request _ 0 (by simp))
  have h5 := h4.step (SemStep.acquire _ 0 (by simp) (by simp [initSys]))
  refine ⟨?_, ?_, ?_⟩
  · refine SemReachable_of_eq h5 ?_ ?_ ?_
    · simp [initSys, overCommitState]
    · intro j
      have hj : j = 0 := Subsingleton.elim j 0
      subst hj
      simp [overCommitState]
    · intro j
      have hj : j = 0 := Subsingleton.elim j 0
      subst hj
      simp [initSys, overCommitState]
  · simp [inFlightCount, inCallCount, abandonedCount, overCommitState,
      Fin.sum_univ_one]
  · simp [inFlightCount, inCallCount, abandonedCount, overCommitState,
      Fin.sum_univ_one]

/-- C5 corrected: the semaphore is a hard ceiling on *permit-holding*
remote calls — at every reachable instant of a batch run, for every batch
size and every interleaving of cooperative scheduler steps, at most K
tasks are inside the `async with semaphore:` block — but it does not bound
the in-flight network calls themselves: a call abandoned by a per-attempt
timeout keeps running without a permit, so the total number of in-flight
calls can exceed K. -/
theorem c5_permit_bound {k n : Nat} {s : SemSys n} (h : SemReachable k n s) :
    inCallCount s ≤ k := by
  have := sem_invariant h
  omega

/-- Witness for C5 at the initial state of a ten-task batch with K = 3. -/
theorem c5_permit_bound_witness : inCallCount (initSys 3 10) ≤ 3 :=
  c5_permit_bound SemReachable.init

/-- C7: the batch generator never raises — the embedding is a total
function, mirroring the blanket try/except of tools.py:727/1023-1030 that
turns any internal exception into an error-status dict, so "raises only for
programmer-error inputs" holds (it raises for nothing).  A batch that
completes within the deadline is returned normally with status "success"
exactly when `failed = 0` and "partial" otherwise; the programmer-error
input, an empty prompt list, also yields a normal error-status return. -/
theorem c7_batch_status (cfg : GenCfg) (prompts : List PromptData) (refs : RefImages)
    (env : BatchEnv) :
    (prompts.length = 0 →
      generate_all_images_parallel cfg prompts refs env =
        { status := "error", error := some "No image prompts found in state" }) ∧
    (prompts.length ≠ 0 →
      (∀ i, i < prompts.length → env.taskFinish i ≤ batchTimeout cfg prompts.length) →
      ∃ s f,
        (generate_all_images_parallel cfg prompts refs env).successful = some s ∧
        (generate_all_images_parallel cfg prompts refs env).failed = some f ∧
        s + f = prompts.length ∧
        (generate_all_images_parallel cfg prompts refs env).status =
          (if f = 0 then "success" else "partial")) := by
  constructor
  · intro h0
    unfold generate_all_images_parallel
    simp [h0]
  · intro hne hfin
    have h := batch_completes cfg prompts refs env hne hfin
    rw [h]
    dsimp only
    refine ⟨_, _, rfl, rfl, ?_, ?_⟩
    · rw [filter_ok_add_filter_err]
      simp
    · have hpart := filter_ok_add_filter_err ((List.range prompts.length).map (fun i =>
        (generate_single_image cfg refs env.savePath (env.oracles i) i
          (prompts.getD i ⟨"", ""⟩)).result))
      have hlen : ((List.range prompts.length).map (fun i =>
        (generate_single_image cfg refs env.savePath (env.oracles i) i
          (prompts.getD i ⟨"", ""⟩)).result)).length = prompts.length := by simp
      refine if_congr ?_ rfl rfl
      omega

/-- Witness for C7: the empty prompt list returns the error dict normally. -/
theorem c7_batch_status_witness :
    generate_all_images_parallel cfgDefault [] noRefs envPrompt =
      { status := "error", error := some "No image prompts found in state" } :=
  (c7_batch_status cfgDefault [] noRefs envPrompt).1 rfl

theorem lookupKey_foldl_erase (L : List String) (st : PState) (k : String) :
    lookupKey (L.foldl eraseKey st) k = if k ∈ L then none else lookupKey st k := by
  induction L generalizing st with
  | nil => simp
  | cons x xs ih =>
    simp only [List.foldl_cons]
    rw [ih]
    by_cases hx : k = x
    · subst hx
      by_cases hmem : k ∈ xs
      · simp [hmem]
      · simp [hmem, lookupKey_eraseKey_self]
    · by_cases hmem : k ∈ xs
      · simp [hmem, hx]
      · simp [hmem, hx, lookupKey_eraseKey_ne st x k hx]

/-- C8 as stated is false at this input: `post_content_text` and
`has_style_reference` are item-scoped keys written by `select_current_post`
for the current post, yet `clear_post_state` leaves them in place — the
cleared state still carries the previous item's content text — while
`current_post` is indeed removed. -/
theorem c8_counterexample :
    lookupKey (clear_post_state (select_current_post ctxOnePost).1).1.state
        "post_content_text" = some (.s "hello") ∧
    lookupKey (clear_post_state (select_current_post ctxOnePost).1).1.state
        "has_style_reference" = some (.b false) ∧
    lookupKey (clear_post_state (select_current_post ctxOnePost).1).1.state
        "current_post" = none :=
  ⟨rfl, rfl, rfl⟩

/-- C8 corrected: clearing removes exactly the five keys `current_post`,
`content_analysis`, `creative_brief`, `copy_content` and `image_prompts`,
resets the ephemeral counter `temp:images_generated_count` to zero and
signals escalation; every other key — item-scoped keys such as
`post_content_text` included, and the cross-item counter
`current_post_index` — is left unchanged for the next iteration. -/
theorem c8_clear_frame (ctx : Ctx) (k : String) :
    (k ∈ keysToClear → lookupKey (clear_post_state ctx).1.state k = none) ∧
    lookupKey (clear_post_state ctx).1.state "temp:images_generated_count"
      = some (.n 0) ∧
    (¬k ∈ keysToClear → k ≠ "temp:images_generated_count" →
      lookupKey (clear_post_state ctx).1.state k = lookupKey ctx.state k) ∧
    (clear_post_state ctx).1.escalate = true := by
  refine ⟨?_, ?_, ?_, rfl⟩
  · intro hmem
    have hk : k ≠ "temp:images_generated_count" := by
      intro hh
      rw [hh] at hmem
      revert hmem
      decide
    show lookupKey (insertKey (keysToClear.foldl eraseKey ctx.state)
      "temp:images_generated_count" (.n 0)) k = none
    rw [lookupKey_insertKey_ne _ _ _ _ hk, lookupKey_foldl_erase]
    simp [hmem]
  · exact lookupKey_insertKey_self _ _ _
  · intro hnm hk
    show lookupKey (insertKey (keysToClear.foldl eraseKey ctx.state)
      "temp:images_generated_count" (.n 0)) k = lookupKey ctx.state k
    rw [lookupKey_insertKey_ne _ _ _ _ hk, lookupKey_foldl_erase]
    simp [hnm]

/-- Witness for C8: the current-post key is gone and the ephemeral counter
is reset after clearing the selected context. -/
theorem c8_clear_frame_witness :
    lookupKey (clear_post_state ctxOnePost).1.state "current_post" = none ∧
    lookupKey (clear_post_state ctxOnePost).1.state "temp:images_generated_count"
      = some (.n 0) :=
  ⟨(c8_clear_frame ctxOnePost "current_post").1 (by decide),
    (c8_clear_frame ctxOnePost "current_post").2.1⟩

/-- C9 as stated is false at this input: with an empty item list the
selector returns an error-status result ("No posts available to process"),
does not escalate, and the batch loop still performs one pipeline iteration
rather than zero. -/
theorem c9_counterexample :
    (select_current_post ctxNoPosts).2 = .err "No posts available to process" ∧
    (select_current_post ctxNoPosts).1.escalate = false ∧
    (batch_processor id 100 ctxNoPosts).iterations = 1 :=
  ⟨rfl, rfl, rfl⟩

/-- C9 corrected: when the data-source query yields an empty item list, the
selector reports an error-status result (not a normal zero-items outcome)
and does not itself stop the loop; the batch loop performs exactly one
pipeline iteration — terminated by the state cleaner's unconditional
escalate — and zero items are selected for processing. -/
theorem c9_empty_one_iteration (middle : PState → PState) (m : Nat) (ctx : Ctx)
    (hempty : getFilteredPosts ctx.state = []) (hesc : ctx.escalate = false)
    (hm : 1 ≤ m) :
    (select_current_post ctx).2 = .err "No posts available to process" ∧
    (select_current_post ctx).1.escalate = false ∧
    (batch_processor middle m ctx).iterations = 1 ∧
    (batch_processor middle m ctx).selected = 0 := by
  have hsel := select_empty ctx hempty
  have hloop := runLoop_one_iteration middle m ctx hesc hm
  refine ⟨by rw [hsel], by rw [hsel]; exact hesc, ?_, ?_⟩
  · unfold batch_processor
    rw [hloop]
  · unfold batch_processor
    rw [hloop]
    simp [hsel, SelectResult.isReady]

/-- Witness for C9 at the concrete empty-list context. -/
theorem c9_empty_one_iteration_witness :
    (batch_processor id 3 ctxNoPosts).iterations = 1 ∧
    (batch_processor id 3 ctxNoPosts).selected = 0 :=
  ⟨(c9_empty_one_iteration id 3 ctxNoPosts rfl rfl (by decide)).2.2.1,
    (c9_empty_one_iteration id 3 ctxNoPosts rfl rfl (by decide)).2.2.2⟩

/-- C10: `clear_post_state` sets the loop-escalate flag unconditionally in
the embedding — the source sets it on its success path (line 132) and in
its exception handler (line 145) alike — so after the first pipeline
iteration the batch loop always stops: for every `max_iterations ≥ 1`,
every middle-stage behaviour and every pending-list content, exactly one
pipeline iteration runs and at most one item is selected for processing. -/
theorem c10_escalate_single_item (middle : PState → PState) (m : Nat) (ctx c : Ctx)
    (hesc : ctx.escalate = false) (hm : 1 ≤ m) :
    (clear_post_state c).1.escalate = true ∧
    (batch_processor middle m ctx).iterations = 1 ∧
    (batch_processor middle m ctx).selected ≤ 1 := by
  refine ⟨clear_post_state_escalates c, ?_, ?_⟩
  · unfold batch_processor
    rw [runLoop_one_iteration middle m ctx hesc hm]
  · unfold batch_processor
    rw [runLoop_one_iteration middle m ctx hesc hm]
    dsimp only
    split <;> simp

/-- Witness for C10: one pending post, batch size 5 — a single iteration. -/
theorem c10_escalate_single_item_witness :
    (batch_processor id 5 ctxOnePost).iterations = 1 ∧
    (batch_processor id 5 ctxOnePost).selected ≤ 1 :=
  ⟨(c10_escalate_single_item id 5 ctxOnePost ctxOnePost rfl (by decide)).2.1,
    (c10_escalate_single_item id 5 ctxOnePost ctxOnePost rfl (by decide)).2.2⟩

end Carusel
